import Mathlib

/-!
Verification development for the Songkick event scraper
(scripts/scrape_songkick.py).

The scraper is a single-shot process: it parses three positional CLI
arguments (latitude, longitude, radius in km), resolves a target URL from
the coordinates, drives a headless browser to fetch the page, locates
event-listing elements through an ordered selector cascade, extracts one
record per element, filters records by geodesic distance from the query
point, and prints exactly one JSON array line on standard output.

Modelling conventions of this shallow embedding:
  - Python floats are modelled as exact rationals.  All numeric literals
    exercised by the claims are short decimal fractions far from any
    binary floating point boundary, so comparisons and thresholds agree
    with the CPython execution.  IEEE special values (inf, nan) are
    outside the rational model.
  - Values produced by json.loads are modelled by the inductive type
    Json; Python None produced for absent keys and for JSON null is
    modelled by Option, collapsing null at the final dict.get step
    exactly as the runtime does.
  - The browser, the network and BeautifulSoup are modelled by an
    Oracle of step outcomes and parsed element lists; the pure
    processing of the fetched data is translated from the source line
    by line.
  - geopy geodesic distance: the argument conversion layer of
    geopy Point (float(x or 0.0) plus latitude and longitude
    normalisation) is translated faithfully; the ellipsoidal core is an
    explicit function parameter, since no claim depends on its values.
  - print calls to standard output are collected as a list of lines;
    standard error output is diagnostic only and is not modelled.
-/

/-! ## Character and string helpers -/

def isWsC (c : Char) : Bool := c = ' ' || c = '\n' || c = '\t' || c = '\r'

/-- Drop leading whitespace characters from a character list. -/
def dropWsL : List Char → List Char
  | [] => []
  | c :: cs => if isWsC c then dropWsL cs else c :: cs

/-- Strip leading and trailing whitespace, as Python str.strip does. -/
def trimChars (cs : List Char) : List Char :=
  (dropWsL ((dropWsL cs).reverse)).reverse

def lowerStr (s : String) : String := String.mk (s.data.map Char.toLower)

/-- needle is an initial segment of hay. -/
def listStartsWith : List Char → List Char → Bool
  | [], _ => true
  | _ :: _, [] => false
  | a :: as, b :: bs => a = b && listStartsWith as bs

/-- needle occurs contiguously somewhere in hay. -/
def listHasSub (needle : List Char) : List Char → Bool
  | [] => needle.isEmpty
  | b :: hs => listStartsWith needle (b :: hs) || listHasSub needle hs

/-- Python substring membership: needle in hay. -/
def containsSub (hay needle : String) : Bool := listHasSub needle.data hay.data

/-- Python s[:10]. -/
def trunc10 (s : String) : String := String.mk (s.data.take 10)

/-! ## Python float() on decimal string literals

Models CPython float parsing of ordinary decimal literals: optional
surrounding whitespace, optional sign, integer and fractional digit
groups (at least one digit overall), optional exponent.  Digit-group
underscores and the special spellings inf and nan are outside the
rational model and are not accepted. -/

def digitsVal : List Char → Nat → Nat
  | [], acc => acc
  | c :: cs, acc => digitsVal cs (acc * 10 + (c.toNat - 48))

def splitSign : List Char → (Bool × List Char)
  | '-' :: cs => (true, cs)
  | '+' :: cs => (false, cs)
  | cs => (false, cs)

def parseFloat (s : String) : Option ℚ :=
  let (neg, cs0) := splitSign (trimChars s.data)
  let (ip, cs1) := cs0.span Char.isDigit
  let (fp, cs2) := match cs1 with
    | '.' :: r =>
      let (f, r2) := r.span Char.isDigit
      (f, r2)
    | _ => ([], cs1)
  if ip.isEmpty && fp.isEmpty then none
  else
    let mant : ℚ := (digitsVal ip 0 : ℚ) + (digitsVal fp 0 : ℚ) / ((10 : ℚ) ^ fp.length)
    let signed : ℚ := if neg then -mant else mant
    match cs2 with
    | [] => some signed
    | c :: r =>
      if c = 'e' || c = 'E' then
        let (eneg, r2) := splitSign r
        let (ed, r3) := r2.span Char.isDigit
        if ed.isEmpty || !r3.isEmpty then none
        else
          let e : Nat := digitsVal ed 0
          some (if eneg then signed / (10 : ℚ) ^ e else signed * (10 : ℚ) ^ e)
      else none

/-! ## Python repr of a float, restricted to decimal rationals

Used where the source interpolates a float into a string (f-strings and
json.dumps).  For a rational whose reduced denominator divides a power
of ten this prints the shortest decimal expansion, with a trailing .0
for integral values, exactly as CPython repr does on the values the
claims exercise.  Other denominators cannot arise from parseFloat; a
fraction fallback keeps the function total. -/

def digChar (n : Nat) : Char := Char.ofNat (48 + n % 10)

def natStrAux : Nat → Nat → List Char → List Char
  | 0, _, acc => acc
  | fuel + 1, n, acc => if n = 0 then acc else natStrAux fuel (n / 10) (digChar n :: acc)

def natStr (n : Nat) : String :=
  if n = 0 then ("0") else String.mk (natStrAux (n + 1) n [])

def ratRepr (q : ℚ) : String :=
  let sign := if q < 0 then ("-") else ("")
  let n := q.num.natAbs
  let d := q.den
  match (List.range 40).find? (fun k => 10 ^ k % d = 0) with
  | some k =>
    let m := n * (10 ^ k / d)
    if k = 0 then sign ++ natStr m ++ ".0"
    else
      let s0 := natStr m
      let s := if s0.length ≤ k then String.mk (List.replicate (k + 1 - s0.length) '0') ++ s0 else s0
      sign ++ String.mk (s.data.take (s.length - k)) ++ "." ++ String.mk (s.data.drop (s.length - k))
  | none => sign ++ natStr n ++ "/" ++ natStr d

/-! ## JSON values

Models the Python objects produced by json.loads and consumed by
json.dumps.  num carries the numeric value as a rational; the Python
int versus float distinction is dropped, which affects only the
serialised spelling of integral numbers and no claim. -/

inductive Json where
  | null : Json
  | bool : Bool → Json
  | num : ℚ → Json
  | str : String → Json
  | arr : List Json → Json
  | obj : List (String × Json) → Json

/-- Last occurrence of a key wins, as in a Python dict built by json.loads. -/
def pyLookup (kvs : List (String × Json)) (k : String) : Option Json :=
  match kvs with
  | [] => none
  | (k2, v) :: rest =>
    match pyLookup rest k with
    | some v2 => some v2
    | none => if k2 = k then some v else none

def objFields : Json → List (String × Json)
  | .obj kvs => kvs
  | _ => []

def objKeys (j : Json) : List String := (objFields j).map (fun kv => kv.1)

/-! ## json.dumps with ensure_ascii False

Default separators: comma-space between items, colon-space after keys.
Strings are quoted with the short escapes for quote, backslash and
control characters; non-ASCII characters pass through. -/

def hexDig (n : Nat) : Char := if n % 16 < 10 then digChar (n % 16) else Char.ofNat (87 + n % 16)

def escChar (c : Char) : List Char :=
  if c = '"' then ['\\', '"']
  else if c = '\\' then ['\\', '\\']
  else if c = '\n' then ['\\', 'n']
  else if c = '\t' then ['\\', 't']
  else if c = '\r' then ['\\', 'r']
  else if c.toNat < 32 then ['\\', 'u', '0', '0', hexDig (c.toNat / 16), hexDig c.toNat]
  else [c]

def quoteStr (s : String) : String :=
  String.mk ('"' :: (s.data.map escChar).flatten ++ ['"'])

mutual

def jsonDumps : Json → String
  | .null => "null"
  | .bool b => if b then ("true") else ("false")
  | .num q => ratRepr q
  | .str s => quoteStr s
  | .arr xs => "[" ++ dumpsItems xs ++ "]"
  | .obj kvs => "\x7b" ++ dumpsFields kvs ++ "\x7d"

def dumpsItems : List Json → String
  | [] => ""
  | [x] => jsonDumps x
  | x :: y :: rest => jsonDumps x ++ ", " ++ dumpsItems (y :: rest)

def dumpsFields : List (String × Json) → String
  | [] => ""
  | [kv] => quoteStr kv.1 ++ ": " ++ jsonDumps kv.2
  | kv :: kv2 :: rest => quoteStr kv.1 ++ ": " ++ jsonDumps kv.2 ++ ", " ++ dumpsFields (kv2 :: rest)

end

/-! ## json.loads

A recursive descent reader over the character list, structured with a
fuel argument for structural termination; the fuel supplied by
jsonParse suffices for every input that the grammar accepts.  Rejects
trailing garbage, as the strict json.loads does. -/

def escUnmap (c : Char) : Option Char :=
  if c = '"' then some '"'
  else if c = '\\' then some '\\'
  else if c = '/' then some '/'
  else if c = 'b' then some (Char.ofNat 8)
  else if c = 'f' then some (Char.ofNat 12)
  else if c = 'n' then some '\n'
  else if c = 'r' then some '\r'
  else if c = 't' then some '\t'
  else none

def hexVal (c : Char) : Option Nat :=
  if c.isDigit then some (c.toNat - 48)
  else if 'a' ≤ c && c ≤ 'f' then some (c.toNat - 87)
  else if 'A' ≤ c && c ≤ 'F' then some (c.toNat - 55)
  else none

/-- Read the remainder of a quoted string, the opening quote already
consumed; returns the content and the characters after the closing
quote. -/
def readStrChars : Nat → List Char → Option (List Char × List Char)
  | 0, _ => none
  | _ + 1, [] => none
  | fuel + 1, c :: cs =>
    if c = '"' then some ([], cs)
    else if c = '\\' then
      match cs with
      | [] => none
      | e :: cs2 =>
        if e = 'u' then
          match cs2 with
          | a :: b :: c2 :: d :: cs3 =>
            match hexVal a, hexVal b, hexVal c2, hexVal d with
            | some x, some y, some z, some w =>
              (readStrChars fuel cs3).map
                (fun p => (Char.ofNat (((x * 16 + y) * 16 + z) * 16 + w) :: p.1, p.2))
            | _, _, _, _ => none
          | _ => none
        else
          match escUnmap e with
          | some c2 => (readStrChars fuel cs2).map (fun p => (c2 :: p.1, p.2))
          | none => none
    else (readStrChars fuel cs).map (fun p => (c :: p.1, p.2))

def isNumChar (c : Char) : Bool :=
  c.isDigit || c = '-' || c = '+' || c = '.' || c = 'e' || c = 'E'

/-- Core of parseFloat on an already isolated character token. -/
def readFloatChars (cs : List Char) : Option ℚ :=
  let (neg, cs0) := splitSign cs
  let (ip, cs1) := cs0.span Char.isDigit
  let (fp, cs2) := match cs1 with
    | '.' :: r =>
      let (f, r2) := r.span Char.isDigit
      (f, r2)
    | _ => ([], cs1)
  if ip.isEmpty && fp.isEmpty then none
  else
    let mant : ℚ := (digitsVal ip 0 : ℚ) + (digitsVal fp 0 : ℚ) / ((10 : ℚ) ^ fp.length)
    let signed : ℚ := if neg then -mant else mant
    match cs2 with
    | [] => some signed
    | c :: r =>
      if c = 'e' || c = 'E' then
        let (eneg, r2) := splitSign r
        let (ed, r3) := r2.span Char.isDigit
        if ed.isEmpty || !r3.isEmpty then none
        else
          let e : Nat := digitsVal ed 0
          some (if eneg then signed / (10 : ℚ) ^ e else signed * (10 : ℚ) ^ e)
      else none

def readNumLit (cs : List Char) : Option (ℚ × List Char) :=
  let (tok, rest) := cs.span isNumChar
  if tok.isEmpty then none
  else
    match readFloatChars tok with
    | some q => some (q, rest)
    | none => none

mutual

def readVal : Nat → List Char → Option (Json × List Char)
  | 0, _ => none
  | fuel + 1, cs0 =>
    match dropWsL cs0 with
    | [] => none
    | c :: cs =>
      if c = '[' then
        match readItems fuel cs with
        | some (xs, rest) => some (.arr xs, rest)
        | none => none
      else if c = '{' then
        match readFields fuel cs with
        | some (kvs, rest) => some (.obj kvs, rest)
        | none => none
      else if c = '"' then
        match readStrChars (cs.length + 1) cs with
        | some (t, rest) => some (.str (String.mk t), rest)
        | none => none
      else if c = 'n' then
        match cs with
        | 'u' :: 'l' :: 'l' :: rest => some (.null, rest)
        | _ => none
      else if c = 't' then
        match cs with
        | 'r' :: 'u' :: 'e' :: rest => some (.bool true, rest)
        | _ => none
      else if c = 'f' then
        match cs with
        | 'a' :: 'l' :: 's' :: 'e' :: rest => some (.bool false, rest)
        | _ => none
      else
        match readNumLit (c :: cs) with
        | some (q, rest) => some (.num q, rest)
        | none => none

def readItems : Nat → List Char → Option (List Json × List Char)
  | 0, _ => none
  | fuel + 1, cs =>
    match dropWsL cs with
    | ']' :: rest => some ([], rest)
    | cs2 =>
      match readVal fuel cs2 with
      | none => none
      | some (v, rest) =>
        match dropWsL rest with
        | ',' :: rest2 =>
          match readItems fuel rest2 with
          | some (vs, rest3) => some (v :: vs, rest3)
          | none => none
        | ']' :: rest2 => some ([v], rest2)
        | _ => none

def readFields : Nat → List Char → Option (List (String × Json) × List Char)
  | 0, _ => none
  | fuel + 1, cs =>
    match dropWsL cs with
    | '}' :: rest => some ([], rest)
    | '"' :: cs2 =>
      match readStrChars (cs2.length + 1) cs2 with
      | none => none
      | some (k, rest) =>
        match dropWsL rest with
        | ':' :: rest2 =>
          match readVal fuel rest2 with
          | none => none
          | some (v, rest3) =>
            match dropWsL rest3 with
            | ',' :: rest4 =>
              match readFields fuel rest4 with
              | some (kvs, rest5) => some ((String.mk k, v) :: kvs, rest5)
              | none => none
            | '}' :: rest4 => some ([(String.mk k, v)], rest4)
            | _ => none
        | _ => none
    | _ => none

end

def jsonParse (s : String) : Option Json :=
  match readVal (2 * s.length + 4) s.data with
  | some (v, rest) => if (dropWsL rest).isEmpty then some v else none
  | none => none

/-! ## Target URL resolution (scrape_songkick.py lines 73 to 101)

The source guards the whole routing block with the numeric truthiness
test if hotel_lat and hotel_lon, so a latitude or longitude equal to
0.0 falls through to the Tijuana fallback branch. -/

def baseUrl : String := "https://www.songkick.com"

def tijuanaUrl : String := "https://www.songkick.com/es/metro-areas/31097-mexico-tijuana"

def monterreyUrl : String := "https://www.songkick.com/es/metro-areas/31098-mexico-monterrey"

def guadalajaraUrl : String := "https://www.songkick.com/es/metro-areas/31099-mexico-guadalajara"

def cdmxUrl : String := "https://www.songkick.com/es/metro-areas/31100-mexico-mexico-city"

def urlStem : String := "https://www.songkick.com/search?query=&location="

def genericUrl (lat lon rad : ℚ) : String :=
  urlStem ++ (ratRepr lat ++ "," ++ ratRepr lon ++ "&radius=" ++ ratRepr rad)

def resolveUrl (lat lon rad : ℚ) : String :=
  if lat ≠ 0 ∧ lon ≠ 0 then
    if lat > 19 ∧ lat < 33 ∧ lon > -118 ∧ lon < -86 then
      if lat > 32 then tijuanaUrl
      else if lat > 25 then monterreyUrl
      else if lat > 20 then guadalajaraUrl
      else cdmxUrl
    else genericUrl lat lon rad
  else tijuanaUrl

/-! ## geopy geodesic argument handling (line 373)

geodesic((hotel_lat, hotel_lon), (lat, lon)).kilometers builds two
geopy Points.  Point applies float(value or 0.0) to each coordinate,
so falsy values (None, False, 0, empty string, empty containers)
become 0.0, a numeric string is parsed by float(), and any other
non-numeric value raises; out-of-range coordinates are wrapped into
the canonical latitude and longitude intervals with the Python modulo.
The ellipsoidal distance core itself is a function parameter. -/

def jsonFalsy : Json → Bool
  | .null => true
  | .bool b => !b
  | .num q => q = 0
  | .str s => s.isEmpty
  | .arr xs => xs.isEmpty
  | .obj kvs => kvs.isEmpty

def pyFloatOfJson : Json → Except String ℚ
  | .num q => .ok q
  | .bool b => .ok (if b then 1 else 0)
  | .str s =>
    match parseFloat s with
    | some q => .ok q
    | none => .error ("ValueError: could not convert string to float")
  | _ => .error ("TypeError: float() argument must be a string or a number")

/-- float(x or 0.0) as applied by geopy Point to one coordinate. -/
def geopyCoord (j : Json) : Except String ℚ :=
  if jsonFalsy j then .ok 0 else pyFloatOfJson j

/-- Python modulo for rationals with positive divisor. -/
def pymod (a b : ℚ) : ℚ := a - b * ⌊a / b⌋

def normLat (x : ℚ) : ℚ := if |x| > 90 then pymod (x + 90) 180 - 90 else x

def normLon (x : ℚ) : ℚ := if |x| > 180 then pymod (x + 180) 360 - 180 else x

def geopyPointOfJson (latJ lonJ : Json) : Except String (ℚ × ℚ) := do
  let la ← geopyCoord latJ
  let lo ← geopyCoord lonJ
  return (normLat la, normLon lo)

/-- Distance in km from the query point to JSON-decoded coordinates,
through the geopy conversion layer; core is the ellipsoidal distance
routine. -/
def geodesicKmJ (core : ℚ × ℚ → ℚ × ℚ → ℚ) (hlat hlon : ℚ) (latJ lonJ : Json) :
    Except String ℚ :=
  match geopyPointOfJson latJ lonJ with
  | .ok p => .ok (core (normLat hlat, normLon hlon) p)
  | .error e => .error e

/-- Python round(d, 2), with the half-way case rounded as by Mathlib
round; the claims only use that the result is within 0.005 of d. -/
def round2 (q : ℚ) : ℚ := ((round (q * 100) : ℤ) : ℚ) / 100

/-! ## Listing elements (lines 333 to 388)

An Element abstracts one BeautifulSoup listing node, carrying exactly
the queries the extractor performs on it. -/

structure TimeTag where
  datetime : Option String
deriving DecidableEq

structure EventLink where
  href : Option String
deriving DecidableEq

structure ScriptTag where
  content : Option String
deriving DecidableEq

structure Microformat where
  scriptTag : Option ScriptTag
deriving DecidableEq

structure Element where
  timeTag : Option TimeTag
  title : Option String
  strongText : Option String
  venueText : Option String
  eventLink : Option EventLink
  micro : Option Microformat
deriving DecidableEq

/-- Lines 336 to 340: datetime attribute of a nested time tag when the
tag is present and carries the attribute, else the title attribute of
the element (empty when absent), truncated to 10 characters when
longer. -/
def dateOf (li : Element) : String :=
  let raw :=
    match li.timeTag with
    | some tt =>
      match tt.datetime with
      | some d => d
      | none => li.title.getD ("")
    | none => li.title.getD ("")
  if raw.length > 10 then trunc10 raw else raw

/-- Line 352: BASE_URL + href when the event link and its href are
present, else the empty string. -/
def linkOf (li : Element) : String :=
  match li.eventLink with
  | some el =>
    match el.href with
    | some h => baseUrl ++ h
    | none => ""
  | none => ""

/-- dict.get(k, default) on a decoded JSON value; raises
AttributeError when the receiver is not a dict. -/
def dictGetD (j : Json) (k : String) (dflt : Json) : Except String Json :=
  match j with
  | .obj kvs => .ok ((pyLookup kvs k).getD dflt)
  | _ => .error ("AttributeError")

/-- dict.get(k) on a decoded JSON value; a stored JSON null decoded to
Python None and an absent key both surface as none. -/
def dictGet? (j : Json) (k : String) : Except String (Option Json) :=
  match j with
  | .obj kvs =>
    .ok ((pyLookup kvs k).bind (fun v =>
      match v with
      | .null => none
      | v2 => some v2))
  | _ => .error ("AttributeError")

/-- Lines 354 to 368: decode the embedded linked-data block.  Every
failure inside the inner try (missing block, empty script, JSON parse
failure, indexing an empty list, attribute errors on non-dicts) leaves
both coordinates unset. -/
def coordPair (li : Element) : Option Json × Option Json :=
  match li.micro with
  | none => (none, none)
  | some m =>
    match m.scriptTag with
    | none => (none, none)
    | some st =>
      match st.content with
      | none => (none, none)
      | some s =>
        match jsonParse s with
        | none => (none, none)
        | some data0 =>
          let data? : Option Json :=
            match data0 with
            | .arr xs => xs.head?
            | j => some j
          match data? with
          | none => (none, none)
          | some data =>
            match dictGetD data ("location") (.obj []) with
            | .error _ => (none, none)
            | .ok loc =>
              match dictGetD loc ("geo") (.obj []) with
              | .error _ => (none, none)
              | .ok geo =>
                match dictGet? geo ("latitude"), dictGet? geo ("longitude") with
                | .ok la, .ok lo => (la, lo)
                | _, _ => (none, none)

/-- The JSON object appended for one kept event (lines 377 to 385). -/
def eventObj (nombre fecha lugar enlace : String) (latJ lonJ : Json) (dm : ℚ) : Json :=
  Json.obj
    [("nombre", Json.str nombre), ("fecha", Json.str fecha), ("lugar", Json.str lugar),
      ("enlace", Json.str enlace), ("latitude", latJ), ("longitude", lonJ),
      ("distance_km", Json.num dm)]

/-- Outcome of processing one listing element inside the per-element
try block (lines 333 to 388). -/
inductive ProcResult where
  | noCoords : ProcResult
  | tooFar : ℚ → ProcResult
  | errSkip : ProcResult
  | kept : Json → ProcResult

/-- One iteration of the extraction loop.  noCoords is the continue at
line 370, tooFar the continue at line 375, errSkip the per-element
except handler at line 386 catching the exception raised inside the
geopy conversion layer. -/
def processElementR (core : ℚ × ℚ → ℚ × ℚ → ℚ) (hlat hlon rad : ℚ) (li : Element) :
    ProcResult :=
  match coordPair li with
  | (some latJ, some lonJ) =>
    match geodesicKmJ core hlat hlon latJ lonJ with
    | .error _ => ProcResult.errSkip
    | .ok d =>
      if d > rad then ProcResult.tooFar d
      else
        ProcResult.kept
          (eventObj (li.strongText.getD ("")) (dateOf li) (li.venueText.getD (""))
            (linkOf li) latJ lonJ (round2 d))
  | _ => ProcResult.noCoords

/-- The list eventos accumulated in document order. -/
def extractEvents (core : ℚ × ℚ → ℚ × ℚ → ℚ) (hlat hlon rad : ℚ)
    (els : List Element) : List Json :=
  els.filterMap (fun li =>
    match processElementR core hlat hlon rad li with
    | ProcResult.kept j => some j
    | _ => none)

/-! ## The browser phase as an oracle of step outcomes

LaunchOutcome covers one chromium.launch attempt (lines 134 to 150);
StepOutcome covers one awaited step that the source guards with both a
TimeoutError branch and a generic exception branch.  The html field is
the markup string returned by the first page.content() call (line 246)
and used by the validation checks; the selector lists abstract the
BeautifulSoup find_all results of the seven structural selectors
(lines 307 to 315) and of the generic class-substring fallback
(line 326) on the finally retrieved content. -/

inductive LaunchOutcome where
  | ok : LaunchOutcome
  | timeout : LaunchOutcome
  | err : LaunchOutcome
deriving DecidableEq

inductive StepOutcome where
  | ok : StepOutcome
  | timeout : StepOutcome
  | err : StepOutcome
deriving DecidableEq

structure Oracle where
  launches : Fin 3 → LaunchOutcome
  newPageOk : Bool
  nav : StepOutcome
  content1Ok : Bool
  html : String
  content2 : StepOutcome
  soupOk : Bool
  selMatches : Fin 7 → List Element
  genericMatches : List Element

/-- Observable result of one run of the coroutine: the stdout lines in
order, whether the browser phase was entered, whether a browser was
acquired, whether browser.close was called, and the resolved target
URL. -/
structure RunResult where
  out : List String
  launched : Bool
  acquired : Bool
  closed : Bool
  url : Option String
deriving DecidableEq

/-- Lines 134 to 153: the launch loop breaks at the first successful
configuration; timeouts and errors fall through to the next one, and
exhaustion (by the raise at line 149 or the guard at line 152) leaves
no browser. -/
def firstOkLaunch (o : Oracle) : Option (Fin 3) :=
  if o.launches 0 = LaunchOutcome.ok then some 0
  else if o.launches 1 = LaunchOutcome.ok then some 1
  else if o.launches 2 = LaunchOutcome.ok then some 2
  else none

/-- Line 257: the fatal blocking indicators, tested case-insensitively
against the page markup.  The robot and bot substrings at line 266 are
logged only and are deliberately absent here. -/
def blockedWord (html : String) : Bool :=
  (["captcha", "access denied", "forbidden", "blocked"] : List String).any
    (fun w => containsSub (lowerStr html) w)

def selLists (o : Oracle) : List (List Element) :=
  [o.selMatches 0, o.selMatches 1, o.selMatches 2, o.selMatches 3, o.selMatches 4,
    o.selMatches 5, o.selMatches 6]

/-- First selector whose find_all result is non-empty (truthiness test
at line 319 followed by break). -/
def firstNonEmpty : List (List Element) → Option (List Element)
  | [] => none
  | l :: ls => if l.isEmpty then firstNonEmpty ls else some l

/-- Lines 317 to 328: first-match-wins over the seven selectors, then
the generic fallback, which may itself be empty. -/
def selectEvents (o : Oracle) : List Element :=
  match firstNonEmpty (selLists o) with
  | some es => es
  | none => o.genericMatches

/-- Lines 390 to 399: serialize the events, re-parse as a validity
check, and print the serialized text, or the literal empty array on
any serialization failure. -/
def emitLines (core : ℚ × ℚ → ℚ × ℚ → ℚ) (hlat hlon rad : ℚ) (o : Oracle) : List String :=
  let line := jsonDumps (Json.arr (extractEvents core hlat hlon rad (selectEvents o)))
  if (jsonParse line).isSome then [line] else ["[]"]

/-- Lines 103 to 399 after successful argument parsing.  Every branch
mirrors one exit path of the source: launch exhaustion raises into the
outer except with no browser to close; any failure after acquisition
closes the browser (directly, through the finally at line 284, or
through the outer except at lines 287 to 295) and prints the empty
array; the success path closes the browser in the finally and proceeds
to parsing, extraction and emission. -/
def scrapeWithBrowser (core : ℚ × ℚ → ℚ × ℚ → ℚ) (hlat hlon rad : ℚ) (o : Oracle) :
    RunResult :=
  let u : Option String := some (resolveUrl hlat hlon rad)
  match firstOkLaunch o with
  | none => ⟨["[]"], true, false, false, u⟩
  | some _ =>
    if o.newPageOk = false then ⟨["[]"], true, true, true, u⟩
    else
      match o.nav with
      | StepOutcome.timeout => ⟨["[]"], true, true, true, u⟩
      | StepOutcome.err => ⟨["[]"], true, true, true, u⟩
      | StepOutcome.ok =>
        if o.content1Ok = false then ⟨["[]"], true, true, true, u⟩
        else if o.html.length < 1000 then ⟨["[]"], true, true, true, u⟩
        else if blockedWord o.html then ⟨["[]"], true, true, true, u⟩
        else
          match o.content2 with
          | StepOutcome.timeout => ⟨["[]"], true, true, true, u⟩
          | StepOutcome.err => ⟨["[]"], true, true, true, u⟩
          | StepOutcome.ok =>
            if o.soupOk = false then ⟨["[]"], true, true, true, u⟩
            else ⟨emitLines core hlat hlon rad o, true, true, true, u⟩

/-- One full run of scrape_songkick_events (lines 57 to 399).  argv is
the full sys.argv including the program name, so the guard at line 60
is a length below 4; the three coordinates are parsed by float() with
a short-circuit to the empty array on the first failure. -/
def scrapeRun (core : ℚ × ℚ → ℚ × ℚ → ℚ) (argv : List String) (o : Oracle) : RunResult :=
  if argv.length < 4 then ⟨["[]"], false, false, false, none⟩
  else
    match parseFloat (argv.getD 1 ("")), parseFloat (argv.getD 2 ("")),
        parseFloat (argv.getD 3 ("")) with
    | some hlat, some hlon, some rad => scrapeWithBrowser core hlat hlon rad o
    | _, _, _ => ⟨["[]"], false, false, false, none⟩

/-- Lines 402 to 414: the wrapper runs the coroutine under a 120
second wall-clock budget.  Cooperative cancellation can only fire at
an await point, and every stdout print in the coroutine is the last
statement of its path after the final await, so a cancelled run has
printed nothing and the handler prints the empty array; the handler
for any other escaping exception prints the same (no modelled path
raises past the internal handlers). -/
def mainRun (core : ℚ × ℚ → ℚ × ℚ → ℚ) (argv : List String) (o : Oracle)
    (cancelled : Bool) : List String :=
  if cancelled then ["[]"] else (scrapeRun core argv o).out

/-! ## Concrete inputs used by witnesses and counterexamples -/

/-- Degenerate ellipsoidal core: a concrete instantiation of the
distance routine parameter for closed statements. -/
def zeroCore : ℚ × ℚ → ℚ × ℚ → ℚ := fun _ _ => 0

def geoScriptNum : String :=
  "\x7b\"location\": \x7b\"geo\": \x7b\"latitude\": 1.0, \"longitude\": 2.0\x7d\x7d\x7d"

def geoScriptStrLat : String :=
  "\x7b\"location\": \x7b\"geo\": \x7b\"latitude\": \"32.5\", \"longitude\": -117.0\x7d\x7d\x7d"

def elemPlain : Element := ⟨none, none, none, none, none, none⟩

def elemNum : Element :=
  ⟨none, none, some ("Artist"), some ("Venue X"), some ⟨some ("/concerts/123")⟩,
    some ⟨some ⟨some geoScriptNum⟩⟩⟩

/-- A listing element whose embedded latitude is the JSON string 32.5
rather than a number. -/
def elemStrLat : Element :=
  ⟨none, none, none, none, none, some ⟨some ⟨some geoScriptStrLat⟩⟩⟩

/-- A listing element whose time tag carries a malformed datetime. -/
def elemBadDate : Element :=
  ⟨some ⟨some ("abc")⟩, none, none, none, none, some ⟨some ⟨some geoScriptNum⟩⟩⟩

def oDflt : Oracle :=
  ⟨fun _ => LaunchOutcome.timeout, true, StepOutcome.ok, true, "", StepOutcome.ok, true,
    fun _ => [], []⟩

def oNavTO : Oracle :=
  ⟨fun _ => LaunchOutcome.ok, true, StepOutcome.timeout, true, "", StepOutcome.ok, true,
    fun _ => [], []⟩

def oSel : Oracle :=
  ⟨fun _ => LaunchOutcome.ok, true, StepOutcome.ok, true, "", StepOutcome.ok, true,
    fun i => if i = 1 then [elemPlain] else [], []⟩

/-! ## Helper lemmas -/

theorem jsonParse_empty : jsonParse ("[]") = some (Json.arr []) := by rfl

theorem dropWsL_cons_notWs (c : Char) (cs : List Char) (h : isWsC c = false) :
    dropWsL (c :: cs) = c :: cs := by
  simp [dropWsL, h]

theorem readVal_arrOfBracket (fuel : Nat) (cs0 : List Char) (v : Json) (rest t : List Char)
    (hb : dropWsL cs0 = '[' :: t) (h : readVal fuel cs0 = some (v, rest)) :
    ∃ xs, v = Json.arr xs := by
  cases fuel with
  | zero => exact Option.noConfusion h
  | succ f =>
    rw [readVal, hb] at h
    simp only [if_pos rfl] at h
    cases hri : readItems f t with
    | none => rw [hri] at h; exact Option.noConfusion h
    | some p =>
      rw [hri] at h
      cases p with
      | mk xs r =>
        injection h with h2
        injection h2 with h3 h4
        exact ⟨xs, h3.symm⟩

theorem jsonParse_bracket (s : String) (v : Json) (hb : s.data.head? = some '[')
    (h : jsonParse s = some v) : ∃ xs, v = Json.arr xs := by
  obtain ⟨t, ht⟩ : ∃ t, s.data = '[' :: t := by
    cases hd : s.data with
    | nil => rw [hd] at hb; exact Option.noConfusion hb
    | cons c cs =>
      rw [hd] at hb
      simp only [List.head?] at hb
      injection hb with hb2
      exact ⟨cs, by rw [hb2]⟩
  unfold jsonParse at h
  cases hr : readVal (2 * s.length + 4) s.data with
  | none => rw [hr] at h; exact Option.noConfusion h
  | some p =>
    rw [hr] at h
    cases p with
    | mk w rest =>
      have hdw : dropWsL s.data = '[' :: t := by
        rw [ht]; exact dropWsL_cons_notWs '[' t (by decide)
      obtain ⟨xs, hxs⟩ := readVal_arrOfBracket _ _ _ _ _ hdw hr
      by_cases he : (dropWsL rest).isEmpty
      · simp only [he, if_pos] at h
        injection h with h2
        exact ⟨xs, by rw [← h2, hxs]⟩
      · simp only [he, if_neg] at h
        exact Option.noConfusion h

theorem jsonDumps_arr_head (xs : List Json) : (jsonDumps (Json.arr xs)).data.head? = some '[' := by
  rw [jsonDumps]
  simp [String.data_append]

theorem emitLines_shape (core : ℚ × ℚ → ℚ × ℚ → ℚ) (hlat hlon rad : ℚ) (o : Oracle) :
    ∃ l xs, emitLines core hlat hlon rad o = [l] ∧ jsonParse l = some (Json.arr xs) := by
  by_cases h :
    (jsonParse (jsonDumps (Json.arr (extractEvents core hlat hlon rad (selectEvents o))))).isSome
  · obtain ⟨v, hv⟩ := Option.isSome_iff_exists.mp h
    obtain ⟨xs, hxs⟩ := jsonParse_bracket _ _ (jsonDumps_arr_head _) hv
    refine ⟨_, xs, ?_, by rw [hv, hxs]⟩
    simp only [emitLines]
    rw [if_pos h]
  · refine ⟨_, [], ?_, jsonParse_empty⟩
    simp only [emitLines]
    rw [if_neg h]

theorem scrapeWithBrowser_out (core : ℚ × ℚ → ℚ × ℚ → ℚ) (hlat hlon rad : ℚ) (o : Oracle) :
    (scrapeWithBrowser core hlat hlon rad o).out = ["[]"] ∨
    (scrapeWithBrowser core hlat hlon rad o).out = emitLines core hlat hlon rad o := by
  unfold scrapeWithBrowser
  repeat' split
  all_goals first | exact Or.inl rfl | exact Or.inr rfl

theorem scrapeRun_out_shape (core : ℚ × ℚ → ℚ × ℚ → ℚ) (argv : List String) (o : Oracle) :
    (scrapeRun core argv o).out = ["[]"] ∨
    ∃ l xs, (scrapeRun core argv o).out = [l] ∧ jsonParse l = some (Json.arr xs) := by
  unfold scrapeRun
  split
  · exact Or.inl rfl
  split
  case _ hlat hlon rad h1 h2 h3 =>
    rcases scrapeWithBrowser_out core hlat hlon rad o with h | h
    · exact Or.inl h
    · obtain ⟨l, xs, hl, hp⟩ := emitLines_shape core hlat hlon rad o
      exact Or.inr ⟨l, xs, by rw [h, hl], hp⟩
  case _ => exact Or.inl rfl

theorem scrapeRun_out_nav (core : ℚ × ℚ → ℚ × ℚ → ℚ) (argv : List String) (o : Oracle)
    (h : o.nav ≠ StepOutcome.ok) : (scrapeRun core argv o).out = ["[]"] := by
  unfold scrapeRun scrapeWithBrowser
  repeat' split
  all_goals first | rfl | (exact absurd (by assumption) h)

theorem scrapeRun_closed_eq_acquired (core : ℚ × ℚ → ℚ × ℚ → ℚ) (argv : List String)
    (o : Oracle) : (scrapeRun core argv o).closed = (scrapeRun core argv o).acquired := by
  unfold scrapeRun scrapeWithBrowser
  repeat' split
  all_goals rfl

theorem processElementR_kept (core : ℚ × ℚ → ℚ × ℚ → ℚ) (hlat hlon rad : ℚ) (li : Element)
    (j : Json) (h : processElementR core hlat hlon rad li = ProcResult.kept j) :
    ∃ latJ lonJ d, coordPair li = (some latJ, some lonJ) ∧
      geodesicKmJ core hlat hlon latJ lonJ = Except.ok d ∧ ¬d > rad ∧
      j = eventObj (li.strongText.getD ("")) (dateOf li) (li.venueText.getD (""))
        (linkOf li) latJ lonJ (round2 d) := by
  unfold processElementR at h
  split at h
  case _ latJ lonJ heq =>
    split at h
    next => exact ProcResult.noConfusion h
    next d hd =>
      split at h
      · exact ProcResult.noConfusion h
      next hle =>
        injection h with h2
        exact ⟨latJ, lonJ, d, heq, hd, hle, h2.symm⟩
  case _ => exact ProcResult.noConfusion h

theorem firstNonEmpty_append (pre : List (List Element)) (l : List Element)
    (post : List (List Element)) (hpre : ∀ x ∈ pre, x = []) (hl : l ≠ []) :
    firstNonEmpty (pre ++ l :: post) = some l := by
  induction pre with
  | nil =>
    have hne : l.isEmpty = false := by
      cases l with
      | nil => exact absurd rfl hl
      | cons a as => rfl
    simp [firstNonEmpty, hne]
  | cons x xs ih =>
    have hx : x = [] := hpre x (by simp)
    subst hx
    simpa [firstNonEmpty] using ih (fun y hy => hpre y (by simp [hy]))

theorem round2_close (d : ℚ) : |round2 d - d| ≤ 1 / 200 := by
  unfold round2
  have h : |d * 100 - ((round (d * 100) : ℤ) : ℚ)| ≤ 1 / 2 := abs_sub_round (d * 100)
  have h2 : ((round (d * 100) : ℤ) : ℚ) / 100 - d =
      -((d * 100 - ((round (d * 100) : ℤ) : ℚ)) / 100) := by ring
  rw [h2, abs_neg, abs_div]
  rw [abs_of_pos (by norm_num : (0 : ℚ) < 100)]
  linarith

theorem dateOf_len (li : Element) : (dateOf li).length ≤ 10 := by
  suffices h : ∀ raw : String, (if raw.length > 10 then trunc10 raw else raw).length ≤ 10 by
    unfold dateOf
    exact h _
  intro raw
  by_cases hr : raw.length > 10
  · rw [if_pos hr]
    show (raw.data.take 10).length ≤ 10
    simp [List.length_take]
  · rw [if_neg hr]
    omega

theorem tijuana_ne_generic (lat lon rad : ℚ) : tijuanaUrl ≠ genericUrl lat lon rad := by
  intro h
  have h25 : tijuanaUrl.data.getD 25 ' ' = (genericUrl lat lon rad).data.getD 25 ' ' := by
    rw [h]
  have e1 : tijuanaUrl.data.getD 25 ' ' = 'e' := by decide
  have e3 : (genericUrl lat lon rad).data =
      urlStem.data ++ (ratRepr lat ++ "," ++ ratRepr lon ++ "&radius=" ++ ratRepr rad).data := by
    simp [genericUrl, String.data_append]
  have hlen : (25 : Nat) < urlStem.data.length := by decide
  have e4 : (genericUrl lat lon rad).data.getD 25 ' ' = 's' := by
    rw [e3]
    simp only [List.getD]
    rw [List.get?_eq_getElem?, List.getElem?_append_left hlen, ← List.get?_eq_getElem?]
    decide
  rw [e1, e4] at h25
  exact absurd h25 (by decide)

/-! ## Claims -/

/-- C1: For every run of the scraper, whatever the input arguments and
whatever internal step fails (navigation timeout, page validation
failure, serialization failure, or the global run timeout), standard
output receives exactly one line, and that line parses as a JSON
array; on any unrecoverable failure that line is the empty array. -/
theorem claim_C1 (core : ℚ × ℚ → ℚ × ℚ → ℚ) (argv : List String) (o : Oracle)
    (cancelled : Bool) :
    (∃ l xs, mainRun core argv o cancelled = [l] ∧ jsonParse l = some (Json.arr xs))
    ∧ (cancelled = true → mainRun core argv o cancelled = ["[]"])
    ∧ (o.nav ≠ StepOutcome.ok → mainRun core argv o cancelled = ["[]"]) := by
  refine ⟨?_, ?_, ?_⟩
  · unfold mainRun
    split
    · exact ⟨("[]"), [], rfl, jsonParse_empty⟩
    · rcases scrapeRun_out_shape core argv o with h | ⟨l, xs, h1, h2⟩
      · exact ⟨("[]"), [], h, jsonParse_empty⟩
      · exact ⟨l, xs, h1, h2⟩
  · intro hc
    simp [mainRun, hc]
  · intro hnav
    unfold mainRun
    split
    · rfl
    · exact scrapeRun_out_nav core argv o hnav

/-- C1 witness. -/
theorem wit_C1 : mainRun zeroCore [] oDflt true = ["[]"] :=
  (claim_C1 zeroCore [] oDflt true).2.1 rfl

unseal Rat.add Rat.mul Rat.sub Rat.inv Rat.ofScientific in
/-- C2 (amended): target URL resolution is a deterministic pure
function of the query; inside the Mexico bounding box the URL is
chosen by the descending latitude bands, and outside the box it is the
generic coordinate search URL provided both coordinates are nonzero
(a zero coordinate takes the truthiness fallback instead); the three
concrete scenarios resolve as stated. -/
theorem claim_C2 (lat lon rad : ℚ) :
    (lat > 19 → lat < 33 → lon > -118 → lon < -86 →
      resolveUrl lat lon rad =
        (if lat > 32 then tijuanaUrl
         else if lat > 25 then monterreyUrl
         else if lat > 20 then guadalajaraUrl
         else cdmxUrl))
    ∧ (lat ≠ 0 → lon ≠ 0 → ¬(lat > 19 ∧ lat < 33 ∧ lon > -118 ∧ lon < -86) →
        resolveUrl lat lon rad = genericUrl lat lon rad)
    ∧ (resolveUrl 32.5 (-117) 20 = tijuanaUrl
       ∧ resolveUrl 19.4 (-99.1) 15 = cdmxUrl
       ∧ containsSub (resolveUrl 48.8 2.3 10) ("48.8") = true
       ∧ containsSub (resolveUrl 48.8 2.3 10) ("2.3") = true) := by
  refine ⟨?_, ?_, ?_⟩
  · intro h19 h33 hlo1 hlo2
    have hne : lat ≠ 0 ∧ lon ≠ 0 := by
      constructor
      · exact ne_of_gt (lt_trans (by norm_num) h19)
      · exact ne_of_lt (lt_trans hlo2 (by norm_num))
    unfold resolveUrl
    rw [if_pos hne, if_pos ⟨h19, h33, hlo1, hlo2⟩]
  · intro h1 h2 hbox
    unfold resolveUrl
    rw [if_pos ⟨h1, h2⟩, if_neg hbox]
  · refine ⟨by decide, by decide, by decide, by decide⟩

unseal Rat.add Rat.mul Rat.sub Rat.inv Rat.ofScientific in
/-- C2 counterexample to the claim as stated: the query (0, 2.3, 10)
lies outside the bounding box, yet resolution yields the Tijuana metro
URL and not the generic coordinate search URL, because the zero
latitude fails the numeric truthiness test. -/
theorem cex_C2 :
    ¬((0 : ℚ) > 19 ∧ (0 : ℚ) < 33 ∧ (2.3 : ℚ) > -118 ∧ (2.3 : ℚ) < -86)
    ∧ resolveUrl 0 2.3 10 = tijuanaUrl
    ∧ resolveUrl 0 2.3 10 ≠ genericUrl 0 2.3 10 := by
  refine ⟨by decide, by decide, by decide⟩

unseal Rat.add Rat.mul Rat.sub Rat.inv Rat.ofScientific in
/-- C2 witness: the inside-box band rule at (26, -100) and the
outside-box generic rule at (48.8, 2.3). -/
theorem wit_C2 :
    resolveUrl 26 (-100) 5 = monterreyUrl ∧
    resolveUrl 48.8 2.3 10 = genericUrl 48.8 2.3 10 := by
  constructor
  · have h := (claim_C2 26 (-100) 5).1 (by norm_num) (by norm_num) (by norm_num) (by norm_num)
    rw [h]
    norm_num
  · exact (claim_C2 48.8 2.3 10).2.1 (by norm_num) (by norm_num) (by norm_num)

/-- C7: fewer than three positional arguments, or an argument that
float() rejects, yields the single output line with the empty array,
no browser phase, no acquisition, and no resolved URL. -/
theorem claim_C7 (core : ℚ × ℚ → ℚ × ℚ → ℚ) (argv : List String) (o : Oracle)
    (h : argv.length < 4 ∨ parseFloat (argv.getD 1 ("")) = none ∨
      parseFloat (argv.getD 2 ("")) = none ∨ parseFloat (argv.getD 3 ("")) = none) :
    scrapeRun core argv o = ⟨["[]"], false, false, false, none⟩ := by
  unfold scrapeRun
  split
  · rfl
  next hlen =>
    split
    next hlat hlon rad h1 h2 h3 =>
      rcases h with h | h | h | h
      · exact absurd h hlen
      · rw [h1] at h; exact Option.noConfusion h
      · rw [h2] at h; exact Option.noConfusion h
      · rw [h3] at h; exact Option.noConfusion h
    next => rfl

/-- C7 witness: a single-argument invocation. -/
theorem wit_C7 : scrapeRun zeroCore [("scrape_songkick.py")] oDflt =
    ⟨["[]"], false, false, false, none⟩ :=
  claim_C7 zeroCore [("scrape_songkick.py")] oDflt (Or.inl (by decide))

/-- C9: once a browser has been acquired it is closed on every exit
path of the run. -/
theorem claim_C9 (core : ℚ × ℚ → ℚ × ℚ → ℚ) (argv : List String) (o : Oracle)
    (h : (scrapeRun core argv o).acquired = true) :
    (scrapeRun core argv o).closed = true :=
  (scrapeRun_closed_eq_acquired core argv o).trans h

unseal Rat.add Rat.mul Rat.sub Rat.inv Rat.ofScientific in
/-- C9 witness: a run that acquires a browser and then times out on
navigation has closed it. -/
theorem wit_C9 :
    (scrapeRun zeroCore [("p"), ("1"), ("2"), ("3")] oNavTO).acquired = true ∧
    (scrapeRun zeroCore [("p"), ("1"), ("2"), ("3")] oNavTO).closed = true :=
  ⟨by rfl, claim_C9 zeroCore [("p"), ("1"), ("2"), ("3")] oNavTO (by rfl)⟩

/-- C10: a query whose parsed latitude or longitude equals 0.0 takes
the coordinates-absent fallback branch and resolves to the Tijuana
metro URL, never to the generic coordinate search URL. -/
theorem claim_C10 (lat lon rad : ℚ) (h : lat = 0 ∨ lon = 0) :
    resolveUrl lat lon rad = tijuanaUrl ∧ resolveUrl lat lon rad ≠ genericUrl lat lon rad := by
  have hne : ¬(lat ≠ 0 ∧ lon ≠ 0) := by
    rcases h with h | h <;> simp [h]
  constructor
  · unfold resolveUrl
    rw [if_neg hne]
  · intro hcontra
    unfold resolveUrl at hcontra
    rw [if_neg hne] at hcontra
    exact tijuana_ne_generic lat lon rad hcontra

/-- C10 witness: the query (5, 0, 10). -/
theorem wit_C10 :
    resolveUrl 5 0 10 = tijuanaUrl ∧ resolveUrl 5 0 10 ≠ genericUrl 5 0 10 :=
  claim_C10 5 0 10 (Or.inr rfl)

/-- C3 (amended): a record whose latitude or longitude is unset (the
linked-data path is missing, unparseable, or yields null) is dropped
before distance filtering; a set but non-numeric value is not dropped
at that stage but flows into the distance computation; and every kept
record carries a distance d with d at most radius_km, distance_km
equal to round(d, 2), within 0.005 of d and at most radius_km plus
0.01. -/
theorem claim_C3 (core : ℚ × ℚ → ℚ × ℚ → ℚ) (hlat hlon rad : ℚ) (li : Element) :
    ((coordPair li).1 = none ∨ (coordPair li).2 = none →
      processElementR core hlat hlon rad li = ProcResult.noCoords)
    ∧ (∀ j, processElementR core hlat hlon rad li = ProcResult.kept j →
        ∃ latJ lonJ d, coordPair li = (some latJ, some lonJ)
          ∧ geodesicKmJ core hlat hlon latJ lonJ = Except.ok d
          ∧ d ≤ rad
          ∧ pyLookup (objFields j) ("distance_km") = some (Json.num (round2 d))
          ∧ |round2 d - d| ≤ 1 / 200
          ∧ round2 d ≤ rad + 1 / 100) := by
  constructor
  · intro h
    unfold processElementR
    split
    next latJ lonJ heq =>
      rw [heq] at h
      rcases h with h | h <;> exact Option.noConfusion h
    next => rfl
  · intro j h
    obtain ⟨latJ, lonJ, d, heq, hd, hle, hj⟩ :=
      processElementR_kept core hlat hlon rad li j h
    have hdr : d ≤ rad := not_lt.mp hle
    have hcl := round2_close d
    have hub : round2 d - d ≤ 1 / 200 := (abs_le.mp hcl).2
    refine ⟨latJ, lonJ, d, heq, hd, hdr, ?_, hcl, by linarith⟩
    rw [hj]
    rfl

unseal Rat.add Rat.mul Rat.sub Rat.inv Rat.ofScientific in
/-- C3 counterexample to the claim as stated: an element whose
embedded latitude is the JSON string 32.5 (present but non-numeric) is
not dropped before distance filtering; it is kept and emitted with the
string as its latitude value. -/
theorem cex_C3 :
    (coordPair elemStrLat).1 = some (Json.str ("32.5")) ∧
    processElementR zeroCore (65 / 2) (-117) 1 elemStrLat =
      ProcResult.kept
        (eventObj ("") ("") ("") ("") (Json.str ("32.5")) (Json.num (-117)) 0) :=
  ⟨by rfl, by rfl⟩

unseal Rat.add Rat.mul Rat.sub Rat.inv Rat.ofScientific in
/-- C3 witness: a kept record with numeric coordinates satisfies the
amended distance properties. -/
theorem wit_C3 :
    ∃ latJ lonJ d, coordPair elemNum = (some latJ, some lonJ)
      ∧ geodesicKmJ zeroCore 0 0 latJ lonJ = Except.ok d
      ∧ d ≤ 1
      ∧ pyLookup
          (objFields
            (eventObj ("Artist") ("") ("Venue X") (baseUrl ++ "/concerts/123")
              (Json.num 1) (Json.num 2) 0)) ("distance_km") = some (Json.num (round2 d))
      ∧ |round2 d - d| ≤ 1 / 200
      ∧ round2 d ≤ 1 + 1 / 100 :=
  (claim_C3 zeroCore 0 0 1 elemNum).2
    (eventObj ("Artist") ("") ("Venue X") (baseUrl ++ "/concerts/123")
      (Json.num 1) (Json.num 2) 0) (by rfl)

/-- C4 (amended): the distance computation is not hardened to return
0.0 on invalid input: a set, non-falsy string coordinate that float()
cannot parse makes it raise a ValueError rather than return anything;
the per-element handler catches the exception and skips that element
so the run is never aborted; and on successfully converted input it
returns the value of the ellipsoidal core, nonnegative whenever the
core is. -/
theorem claim_C4 (core : ℚ × ℚ → ℚ × ℚ → ℚ) (hlat hlon rad : ℚ) (latJ lonJ : Json)
    (li : Element) :
    (∀ s : String, jsonFalsy (Json.str s) = false → parseFloat s = none →
      geodesicKmJ core hlat hlon (Json.str s) lonJ =
        Except.error ("ValueError: could not convert string to float"))
    ∧ (∀ e, coordPair li = (some latJ, some lonJ) →
        geodesicKmJ core hlat hlon latJ lonJ = Except.error e →
        processElementR core hlat hlon rad li = ProcResult.errSkip)
    ∧ ((∀ p q, 0 ≤ core p q) →
        ∀ d, geodesicKmJ core hlat hlon latJ lonJ = Except.ok d → 0 ≤ d) := by
  refine ⟨?_, ?_, ?_⟩
  · intro s hf hp
    unfold geodesicKmJ geopyPointOfJson geopyCoord
    simp [hf, pyFloatOfJson, hp, Bind.bind, Except.bind, Functor.map, Except.map]
  · intro e heq herr
    unfold processElementR
    split
    next a b heq2 =>
      rw [heq] at heq2
      injection heq2 with ha hb
      injection ha with ha2
      injection hb with hb2
      rw [← ha2, ← hb2, herr]
    next hne =>
      exact (hne latJ lonJ heq).elim
  · intro hpos d hok
    unfold geodesicKmJ at hok
    split at hok
    next p hp =>
      injection hok with h2
      rw [← h2]
      exact hpos _ _
    next => exact Except.noConfusion hok

/-- C4 counterexample to the claim as stated: on the non-numeric
latitude string abc the distance computation raises a ValueError; it
does not return 0.0. -/
theorem cex_C4 :
    geodesicKmJ zeroCore 0 0 (Json.str ("abc")) (Json.num 0) =
      Except.error ("ValueError: could not convert string to float")
    ∧ geodesicKmJ zeroCore 0 0 (Json.str ("abc")) (Json.num 0) ≠ Except.ok 0 := by
  constructor
  · rfl
  · intro h
    rw [(rfl :
      geodesicKmJ zeroCore 0 0 (Json.str ("abc")) (Json.num 0) =
        (Except.error ("ValueError: could not convert string to float") : Except String ℚ))]
      at h
    exact Except.noConfusion h

/-- C4 witness: the error branch at the unparseable string xyz. -/
theorem wit_C4 :
    geodesicKmJ zeroCore 0 0 (Json.str ("xyz")) (Json.num 0) =
      Except.error ("ValueError: could not convert string to float") :=
  (claim_C4 zeroCore 0 0 0 (Json.num 0) (Json.num 0) elemPlain).1 ("xyz") (by rfl) (by rfl)

/-- C5 (amended): every kept record is an object with exactly the keys
nombre, fecha, lugar, enlace, latitude, longitude and distance_km (the
Spanish spellings of name, date, venue, link), and its enlace value is
the site base URL prefixed to the element href, or the empty string
when the event link or its href is absent. -/
theorem claim_C5 (core : ℚ × ℚ → ℚ × ℚ → ℚ) (hlat hlon rad : ℚ) (li : Element) (j : Json)
    (h : processElementR core hlat hlon rad li = ProcResult.kept j) :
    objKeys j = ["nombre", "fecha", "lugar", "enlace", "latitude", "longitude", "distance_km"]
    ∧ ((∃ el h2, li.eventLink = some el ∧ el.href = some h2 ∧
        pyLookup (objFields j) ("enlace") = some (Json.str (baseUrl ++ h2)))
      ∨ pyLookup (objFields j) ("enlace") = some (Json.str (""))) := by
  obtain ⟨latJ, lonJ, d, heq, hd, hle, hj⟩ := processElementR_kept core hlat hlon rad li j h
  subst hj
  constructor
  · rfl
  · have hlk : pyLookup
        (objFields
          (eventObj (li.strongText.getD ("")) (dateOf li) (li.venueText.getD (""))
            (linkOf li) latJ lonJ (round2 d))) ("enlace") =
        some (Json.str (linkOf li)) := by rfl
    cases hev : li.eventLink with
    | none =>
      right
      rw [hlk]
      simp [linkOf, hev]
    | some el =>
      cases heh : el.href with
      | none =>
        right
        rw [hlk]
        simp [linkOf, hev, heh]
      | some h2 =>
        left
        refine ⟨el, h2, rfl, heh, ?_⟩
        rw [hlk]
        simp [linkOf, hev, heh]

unseal Rat.add Rat.mul Rat.sub Rat.inv Rat.ofScientific in
/-- C5 counterexample to the claim as stated: a kept record carries
the Spanish key set; it has no field called name. -/
theorem cex_C5 :
    processElementR zeroCore 0 0 1 elemNum =
      ProcResult.kept
        (eventObj ("Artist") ("") ("Venue X") (baseUrl ++ "/concerts/123")
          (Json.num 1) (Json.num 2) 0)
    ∧ objKeys
        (eventObj ("Artist") ("") ("Venue X") (baseUrl ++ "/concerts/123")
          (Json.num 1) (Json.num 2) 0) ≠
        ["name", "date", "venue", "link", "latitude", "longitude", "distance_km"]
    ∧ ("name") ∉ objKeys
        (eventObj ("Artist") ("") ("Venue X") (baseUrl ++ "/concerts/123")
          (Json.num 1) (Json.num 2) 0) :=
  ⟨by rfl, by decide, by decide⟩

unseal Rat.add Rat.mul Rat.sub Rat.inv Rat.ofScientific in
/-- C5 witness: the amended key and link facts at a concrete kept
record. -/
theorem wit_C5 :
    objKeys
        (eventObj ("Artist") ("") ("Venue X") (baseUrl ++ "/concerts/123")
          (Json.num 1) (Json.num 2) 0) =
      ["nombre", "fecha", "lugar", "enlace", "latitude", "longitude", "distance_km"]
    ∧ ((∃ el h2, elemNum.eventLink = some el ∧ el.href = some h2 ∧
        pyLookup
          (objFields
            (eventObj ("Artist") ("") ("Venue X") (baseUrl ++ "/concerts/123")
              (Json.num 1) (Json.num 2) 0)) ("enlace") = some (Json.str (baseUrl ++ h2)))
      ∨ pyLookup
          (objFields
            (eventObj ("Artist") ("") ("Venue X") (baseUrl ++ "/concerts/123")
              (Json.num 1) (Json.num 2) 0)) ("enlace") = some (Json.str (""))) :=
  claim_C5 zeroCore 0 0 1 elemNum
    (eventObj ("Artist") ("") ("Venue X") (baseUrl ++ "/concerts/123")
      (Json.num 1) (Json.num 2) 0) (by rfl)

/-- C6 (amended): the date of a kept record is the datetime attribute
of the nested time tag when the tag and attribute are present, else
the title attribute of the element (empty when absent), truncated to
its first 10 characters when longer than 10; its length is therefore
at most 10, but a non-empty date need not be exactly 10 characters nor
match the date pattern. -/
theorem claim_C6 (core : ℚ × ℚ → ℚ × ℚ → ℚ) (hlat hlon rad : ℚ) (li : Element) (j : Json)
    (h : processElementR core hlat hlon rad li = ProcResult.kept j) :
    pyLookup (objFields j) ("fecha") = some (Json.str (dateOf li))
    ∧ (dateOf li).length ≤ 10
    ∧ (∀ tt d0, li.timeTag = some tt → tt.datetime = some d0 →
        dateOf li = (if d0.length > 10 then trunc10 d0 else d0))
    ∧ ((li.timeTag = none ∨ ∃ tt, li.timeTag = some tt ∧ tt.datetime = none) →
        dateOf li =
          (if (li.title.getD ("")).length > 10 then trunc10 (li.title.getD (""))
           else li.title.getD (""))) := by
  obtain ⟨latJ, lonJ, d, heq, hd, hle, hj⟩ := processElementR_kept core hlat hlon rad li j h
  subst hj
  refine ⟨rfl, dateOf_len li, ?_, ?_⟩
  · intro tt d0 h1 h2
    simp [dateOf, h1, h2]
  · intro hcase
    rcases hcase with h1 | ⟨tt, h1, h2⟩
    · simp [dateOf, h1]
    · simp [dateOf, h1, h2]

unseal Rat.add Rat.mul Rat.sub Rat.inv Rat.ofScientific in
/-- C6 counterexample to the claim as stated: an element whose time
tag datetime attribute is the three character string abc is kept, and
its emitted date is abc: non-empty, not 10 characters long, and not of
the date pattern. -/
theorem cex_C6 :
    processElementR zeroCore 0 0 1 elemBadDate =
      ProcResult.kept (eventObj ("") ("abc") ("") ("") (Json.num 1) (Json.num 2) 0)
    ∧ dateOf elemBadDate = ("abc")
    ∧ ("abc" : String) ≠ ""
    ∧ ¬(("abc" : String).length = 10) :=
  ⟨by rfl, by rfl, by decide, by decide⟩

unseal Rat.add Rat.mul Rat.sub Rat.inv Rat.ofScientific in
/-- C6 witness: the amended date facts at a concrete kept record. -/
theorem wit_C6 :
    pyLookup
        (objFields (eventObj ("") ("abc") ("") ("") (Json.num 1) (Json.num 2) 0)) ("fecha") =
      some (Json.str (dateOf elemBadDate))
    ∧ (dateOf elemBadDate).length ≤ 10 :=
  (fun h => ⟨h.1, h.2.1⟩)
    (claim_C6 zeroCore 0 0 1 elemBadDate
      (eventObj ("") ("abc") ("") ("") (Json.num 1) (Json.num 2) 0) (by rfl))

/-- C8: the selector cascade is first-match-wins over the ordered
candidate list with no union of matches; when every candidate and the
generic fallback yield nothing, the run proceeds with an empty element
set and produces the empty but valid result array. -/
theorem claim_C8 (o : Oracle) :
    (∀ pre l post, selLists o = pre ++ l :: post → (∀ x ∈ pre, x = []) → l ≠ [] →
      selectEvents o = l)
    ∧ ((∀ i : Fin 7, o.selMatches i = []) → selectEvents o = o.genericMatches)
    ∧ (∀ core hlat hlon rad, (∀ i : Fin 7, o.selMatches i = []) → o.genericMatches = [] →
        emitLines core hlat hlon rad o = ["[]"] ∧ jsonParse ("[]") = some (Json.arr [])) := by
  have hsel : ∀ _ : (∀ i : Fin 7, o.selMatches i = []),
      selectEvents o = o.genericMatches := by
    intro h
    unfold selectEvents selLists
    rw [h 0, h 1, h 2, h 3, h 4, h 5, h 6]
    rfl
  refine ⟨?_, hsel, ?_⟩
  · intro pre l post hs hpre hl
    unfold selectEvents
    rw [hs, firstNonEmpty_append pre l post hpre hl]
  · intro core hlat hlon rad h hg
    have h2 : selectEvents o = [] := (hsel h).trans hg
    constructor
    · simp only [emitLines, h2]
      rw [show extractEvents core hlat hlon rad [] = [] from rfl]
      rw [show jsonDumps (Json.arr []) = ("[]") from by simp [jsonDumps, dumpsItems]]
      simp [jsonParse_empty]
    · exact jsonParse_empty

/-- C8 witness: with the first candidate empty and the second matching
one element, the cascade returns exactly the second candidate list;
with nothing matched at all, emission yields the empty array. -/
theorem wit_C8 :
    selectEvents oSel = [elemPlain] ∧ emitLines zeroCore 0 0 1 oDflt = ["[]"] :=
  ⟨(claim_C8 oSel).1 [[]] [elemPlain] [[], [], [], [], []] (by rfl)
      (by intro x hx; rw [List.mem_singleton] at hx; exact hx) (by simp),
    ((claim_C8 oDflt).2.2 zeroCore 0 0 1 (fun _ => rfl) rfl).1⟩
